import Mathlib

/-!
Verification of the retrieval-and-synthesis core of the
assistant-etudiant-intelligent repository against its specification.

Shallow embedding conventions:
- Python floats are modelled as exact rationals (ℚ); the claims settled here
  concern orderings, branch selection and closed-form values, none of which
  hinge on binary rounding.
- Wall-clock fields (processing_time, timestamps) are abstracted: they never
  influence control flow.
- The embedding provider (HuggingFaceEmbeddings) and the generation provider
  (Ollama) are external collaborators and enter as explicit function
  parameters; a per-call failure is `none`/`Option`.
- FAISS IndexFlatL2 exact search is modelled as the stable ascending sort of
  (squared L2 distance, insertion index) pairs truncated to k, which is the
  documented behaviour of exhaustive flat search.
- Persistence is modelled by an `Artifacts` value holding the four on-disk
  files, each possibly missing or malformed.
- Python string primitives (lower, split, strip, startswith, slicing) are
  modelled by structurally recursive functions over the character list, with
  the same behaviour on the texts involved.
-/

/-- Python substring test `needle in hay` on strings. -/
def strContains (hay needle : String) : Bool :=
  decide (needle.data <:+: hay.data)

/-- Python `str.lower()`, character by character (structural version of
`String.toLower`). -/
def pyLower (s : String) : String := ⟨s.data.map Char.toLower⟩

/-- Worker for `pyWords`: scan the characters, accumulating the current
word reversed. -/
def pyWordsAux : List Char → List Char → List String
  | [], acc => if acc.isEmpty then [] else [String.mk acc.reverse]
  | c :: cs, acc =>
    if c.isWhitespace then
      (if acc.isEmpty then pyWordsAux cs []
       else String.mk acc.reverse :: pyWordsAux cs [])
    else pyWordsAux cs (c :: acc)

/-- Python `str.split()` with no argument: split on whitespace runs,
dropping empty pieces. -/
def pyWords (s : String) : List String := pyWordsAux s.data []

/-- Token count used throughout the engines: `len(text.split())`. -/
def wordCount (s : String) : Nat := (pyWords s).length

/-- Python character slice `s[:n]` (structural version of `String.take`). -/
def pyTake (s : String) (n : Nat) : String := ⟨s.data.take n⟩

/-- Python `str.strip()` (structural version of `String.trim`). -/
def pyStrip (s : String) : String :=
  ⟨((s.data.dropWhile Char.isWhitespace).reverse.dropWhile Char.isWhitespace).reverse⟩

/-- Python `str.startswith` (structural version of `String.startsWith`). -/
def pyStartsWith (s pre : String) : Bool := pre.data.isPrefixOf s.data

/-- Worker for `pySplitOnChar`. -/
def pySplitOnCharAux (c : Char) : List Char → List Char → List String
  | [], acc => [String.mk acc.reverse]
  | x :: xs, acc =>
    if x = c then String.mk acc.reverse :: pySplitOnCharAux c xs []
    else pySplitOnCharAux c xs (x :: acc)

/-- Python `str.split(sep)` for a one-character separator, keeping empty
pieces (structural version of `String.splitOn`). -/
def pySplitOnChar (c : Char) (s : String) : List String :=
  pySplitOnCharAux c s.data []

/-- Embedding vectors (`float[D]`) over ℚ. -/
abbrev Vec := List ℚ

/-- Squared L2 distance, the metric of `faiss.IndexFlatL2`. -/
def sqDist (u v : Vec) : ℚ := (List.zipWith (fun a b => (a - b) ^ 2) u v).sum

/-- Dot product (`np.dot`) used by `_rerank_results`. -/
def dotQ (u v : Vec) : ℚ := (List.zipWith (fun a b => a * b) u v).sum

/-- A langchain `Document`: one indexed chunk (content plus metadata map). -/
structure Doc where
  page_content : String
  metadata : List (String × String)
deriving DecidableEq

instance : Inhabited Doc := ⟨⟨"", []⟩⟩

/-- Python `metadata.get(key, default)`. -/
def metaGet (m : List (String × String)) (key dflt : String) : String :=
  match m.find? (fun p => p.1 == key) with
  | some p => p.2
  | none => dflt

namespace EnhancedVectorStore

/-- The `self.stats` dict of `EnhancedVectorStore` (timestamp abstracted). -/
structure Stats where
  total_vectors : Nat
  total_documents : Nat
  last_updated : Option String
  index_type : String
  embeddings_model : String
deriving DecidableEq

/-- In-memory state of `EnhancedVectorStore` (src/src/vector_store.py): the
flat FAISS index is the stored vectors in insertion order, `documents` the
parallel chunk list, `document_lookup` the id-to-record dict. -/
structure Store where
  index : List Vec
  documents : List Doc
  document_lookup : List (Nat × Doc)
  stats : Stats
deriving DecidableEq

/-- Stats of a freshly constructed flat store (`__init__`). -/
def initStats : Stats :=
  { total_vectors := 0
    total_documents := 0
    last_updated := none
    index_type := "flat"
    embeddings_model := "all-MiniLM-L6-v2" }

/-- A freshly constructed, never-built flat store. -/
def emptyStore : Store :=
  { index := [], documents := [], document_lookup := [], stats := initStats }

/-- Ascending (distance, insertion index) order on flat-search result pairs. -/
def keyLe (a b : ℚ × Nat) : Prop := a.1 < b.1 ∨ (a.1 = b.1 ∧ a.2 ≤ b.2)

instance : DecidableRel keyLe := fun a b =>
  inferInstanceAs (Decidable (a.1 < b.1 ∨ (a.1 = b.1 ∧ a.2 ≤ b.2)))

instance : IsTotal (ℚ × Nat) keyLe where
  total a b := by
    rcases lt_trichotomy a.1 b.1 with h | h | h
    · exact Or.inl (Or.inl h)
    · rcases Nat.le_total a.2 b.2 with h2 | h2
      · exact Or.inl (Or.inr ⟨h, h2⟩)
      · exact Or.inr (Or.inr ⟨h.symm, h2⟩)
    · exact Or.inr (Or.inl h)

instance : IsTrans (ℚ × Nat) keyLe where
  trans a b c hab hbc := by
    rcases hab with h1 | ⟨h1, h1n⟩ <;> rcases hbc with h2 | ⟨h2, h2n⟩
    · exact Or.inl (h1.trans h2)
    · exact Or.inl (h2 ▸ h1)
    · exact Or.inl (h1 ▸ h2)
    · exact Or.inr ⟨h1.trans h2, h1n.trans h2n⟩

/-- Exact search of `faiss.IndexFlatL2`: the stored vectors ranked by
ascending squared L2 distance to the query, ties broken by insertion index,
truncated to `k`. Returns (distance, index) pairs; slots FAISS would pad
with index -1 past `ntotal` are simply absent. -/
def faissSearch (index : List Vec) (qv : Vec) (k : Nat) : List (ℚ × Nat) :=
  (List.insertionSort keyLe (index.enum.map (fun p => (sqDist qv p.2, p.1)))).take k

/-- Combined score of `_rerank_results`: `(np.dot(q_emb, d_emb) + (1 - distance)) / 2`. -/
def combinedScore (embed : String → Vec) (query : String) (r : Doc × ℚ) : ℚ :=
  (dotQ (embed query) (embed r.1.page_content) + (1 - r.2)) / 2

/-- Descending-score order used by the reranker's `sorted(..., reverse=True)`. -/
def scoreGe (a b : Doc × ℚ) : Prop := b.2 ≤ a.2

instance : DecidableRel scoreGe := fun a b =>
  inferInstanceAs (Decidable (b.2 ≤ a.2))

/-- `EnhancedVectorStore._rerank_results`: replace each distance by the
combined score and sort by descending combined score (stable). The
graceful-degradation `except` branch is unreachable in the pure model. -/
def rerank_results (embed : String → Vec) (query : String)
    (results : List (Doc × ℚ)) : List (Doc × ℚ) :=
  List.insertionSort scoreGe (results.map (fun r => (r.1, combinedScore embed query r)))

/-- `EnhancedVectorStore.search_documents` (signature default
`use_reranking = True`): embed the query, fetch `2k` (rerank) or `k` nearest
from the flat index, keep pairs whose id is in range, then optionally rerank
and truncate to `k`. -/
def search_documents (embed : String → Vec) (s : Store) (query : String)
    (k : Nat) (use_reranking : Bool) : List (Doc × ℚ) :=
  let qv := embed query
  let fetched := faissSearch s.index qv (if use_reranking then k * 2 else k)
  let results := fetched.filterMap (fun p => (s.documents[p.2]?).map (fun d => (d, p.1)))
  if use_reranking then (rerank_results embed query results).take k else results

/-- The reset performed at the top of `create_vector_store`
(`_initialize_index()`; `self.documents = []`; `self.document_lookup = {}`);
`stats` is not reset there. -/
def reset_store (s : Store) : Store :=
  { s with index := [], documents := [], document_lookup := [] }

/-- `EnhancedVectorStore.create_vector_store`: the state is reset first, then
each chunk is embedded (`none` = that chunk's embedding raised and is
skipped); if no chunk embeds the build returns `False`. On success the new
vectors, documents, lookup and stats are installed (the `save_vector_store`
call also made there writes artifacts and does not change the state). -/
def create_vector_store (embedDoc : String → Option Vec) (s : Store)
    (documents : List Doc) : Bool × Store :=
  let s0 := reset_store s
  let ok := documents.enum.filterMap
    (fun p => (embedDoc p.2.page_content).map (fun v => (p.1, p.2, v)))
  let embs := ok.map (fun t => t.2.2)
  if embs.isEmpty then (false, s0)
  else (true,
    { s0 with
      index := embs
      documents := ok.map (fun t => t.2.1)
      document_lookup := ok.map (fun t => (t.1, t.2.1))
      stats := { s0.stats with
                 total_vectors := embs.length
                 total_documents := ok.length
                 last_updated := some "updated" } })

/-- Disk state of one persisted artifact. -/
inductive PFile (α : Type) where
  | missing : PFile α
  | malformed : PFile α
  | ok : α → PFile α
deriving DecidableEq

/-- Whether the artifact's file exists (`Path.exists()`); malformed files exist. -/
def PFile.existsOnDisk : PFile α → Bool
  | .missing => false
  | _ => true

/-- The four co-located artifacts written by `save_vector_store`:
index.faiss, documents.pkl, lookup.json, stats.json. -/
structure Artifacts where
  indexFile : PFile (List Vec)
  documentsFile : PFile (List Doc)
  lookupFile : PFile (List (Nat × Doc))
  statsFile : PFile Stats
deriving DecidableEq

/-- `EnhancedVectorStore.save_vector_store`: writes the four artifacts. -/
def save_vector_store (s : Store) : Artifacts :=
  { indexFile := .ok s.index
    documentsFile := .ok s.documents
    lookupFile := .ok s.document_lookup
    statsFile := .ok s.stats }

/-- `EnhancedVectorStore.load_vector_store`: returns `False` when any of the
four files is missing (state untouched); otherwise reads the artifacts in
source order, assigning each field as it is read, and the single `except`
handler returns `False` as soon as a read raises — fields assigned before the
raise keep their newly loaded values. -/
def load_vector_store (s : Store) (a : Artifacts) : Bool × Store :=
  if (a.indexFile.existsOnDisk && a.documentsFile.existsOnDisk
      && a.lookupFile.existsOnDisk && a.statsFile.existsOnDisk) = false then
    (false, s)
  else
    match a.indexFile with
    | .ok ix =>
      let s1 := { s with index := ix }
      match a.documentsFile with
      | .ok ds =>
        let s2 := { s1 with documents := ds }
        match a.lookupFile with
        | .ok lk =>
          let s3 := { s2 with document_lookup := lk }
          match a.statsFile with
          | .ok st => (true, { s3 with stats := st })
          | _ => (false, s3)
        | _ => (false, s2)
      | _ => (false, s1)
    | _ => (false, s)

end EnhancedVectorStore

namespace OllamaRAGEngine

/-- Canned answer registered under the trigger keyword "ohm". -/
def ohm_answer : String := "**LOI D'OHM - EXPLICATION COMPLÈTE**

**Formule fondamentale :** U = R × I

**Où :**
- U = tension (Volts)
- R = résistance (Ohms)
- I = intensité (Ampères)

**Exemple pratique :**
Une résistance de 100Ω traversée par 0.5A :
U = 100 × 0.5 = 50V

**Applications :**
- Calcul de circuits électriques
- Dimensionnement de composants
- Analyse de puissance (P = U×I)"

/-- Canned answer registered under the trigger keyword "transistor". -/
def transistor_answer : String := "**TRANSISTOR - FONCTIONNEMENT**

**Types principaux :**
- NPN et PNP (bipolaires)
- MOSFET (effet de champ)

**Principe :**
Composant à 3 bornes contrôlant le courant :
- Base/Grille : contrôle
- Collecteur/Drain : sortie
- Émetteur/Source : référence

**Applications :**
- Amplification de signaux
- Commutation ON/OFF
- Circuits logiques"

/-- Canned answer registered under the trigger keyword "derivee". -/
def derivee_answer : String := "**DÉRIVÉES - CALCUL DIFFÉRENTIEL**

**Définition :**
f'(x) = lim(h→0) [f(x+h) - f(x)] / h

**Règles de base :**
- (x^n)' = n×x^(n-1)
- (sin x)' = cos x
- (e^x)' = e^x
- (ln x)' = 1/x

**Exemple :**
f(x) = x³ + 2x² - 5x + 1
f'(x) = 3x² + 4x - 5"

/-- Canned answer registered under the trigger keyword "ph". -/
def ph_answer : String := "**pH - ACIDITÉ ET BASICITÉ**

**Formule :** pH = -log[H⁺]

**Échelle :**
- pH < 7 : acide
- pH = 7 : neutre
- pH > 7 : basique

**Calcul :**
[H⁺] = 10^(-pH)

**Exemple :**
Si [H⁺] = 10⁻³ M, alors pH = 3"

/-- `OllamaRAGEngine._load_precomputed_responses`: the registered
(trigger keyword, canned answer) table, in its declared (insertion) order,
which is also the dict's iteration order in Python 3.7+. -/
def precomputed_responses : List (String × String) :=
  [("ohm", ohm_answer), ("transistor", transistor_answer),
   ("derivee", derivee_answer), ("ph", ph_answer)]

/-- The keyword loop of `_get_precomputed_response`: first registered
keyword occurring in the lowercased question wins. -/
def findTrigger (ql : String) : List (String × String) → Option String
  | [] => none
  | p :: rest => if strContains ql p.1 then some p.2 else findTrigger ql rest

/-- `OllamaRAGEngine._get_precomputed_response`. -/
def get_precomputed_response (question : String) : Option String :=
  findTrigger (pyLower question) precomputed_responses

/-- One formatted retrieval candidate of `_retrieve_documents`. -/
structure RDoc where
  content : String
  metadata : List (String × String)
  score : ℚ
  index : Nat
deriving DecidableEq

/-- `OllamaRAGEngine._retrieve_documents`, with the injected vector store's
`search_similar_async` result (an external collaborator, also `[]` when the
store is absent or raises) passed in as `retrieved`: each document is
formatted with the positional score `1.0 - i * 0.1`. -/
def retrieve_documents (retrieved : List Doc) : List RDoc :=
  retrieved.enum.map (fun p =>
    { content := p.2.page_content
      metadata := p.2.metadata
      score := 1 - (p.1 : ℚ) * (1 / 10)
      index := p.1 })

/-- Python `set(text.lower().split())` as a duplicate-free word list. -/
def wordSet (s : String) : List String := (pyWords (pyLower s)).dedup

/-- Size of the intersection of the two word sets. -/
def overlapCount (q c : String) : Nat :=
  ((wordSet q).filter (fun w => decide (w ∈ wordSet c))).length

/-- Descending-score order used by `documents.sort(key=..., reverse=True)`. -/
def rdocGe (a b : RDoc) : Prop := b.score ≤ a.score

instance : DecidableRel rdocGe := fun a b =>
  inferInstanceAs (Decidable (b.score ≤ a.score))

/-- `OllamaRAGEngine._rerank_documents`: boost each score by
`overlap * 0.05` keyword-overlap and stable-sort by descending score. -/
def rerank_documents (question : String) (documents : List RDoc) : List RDoc :=
  List.insertionSort rdocGe
    (documents.map (fun d =>
      { d with score := d.score + (overlapCount question d.content : ℚ) * (1 / 20) }))

/-- Steps 2 and 3 of `ask_question_async` under the default configuration
(`use_reranking = True`): format the retrieved documents, then rerank when
the list is non-empty (`if rerank and relevant_docs:`). -/
def pipelineDocs (question : String) (retrieved : List Doc) : List RDoc :=
  let ds := retrieve_documents retrieved
  if ¬ ds.isEmpty then rerank_documents question ds else ds

/-- `OllamaRAGEngine._build_context`: top 3 documents, content capped at 500
characters, tagged with their source. -/
def build_context (documents : List RDoc) : String :=
  if documents.isEmpty then ""
  else String.intercalate "\n\n" ((documents.take 3).enum.map (fun p =>
    "[Source: " ++ metaGet p.2.metadata "source" ("Document " ++ toString (p.1 + 1))
      ++ "]\n" ++ pyTake p.2.content 500))

/-- `OllamaRAGEngine._create_educational_prompt` (both variants). -/
def create_educational_prompt (question context : String) : String :=
  if context ≠ "" then
    "Tu es un professeur expérimenté et bienveillant. Un étudiant te pose une question et tu as accès à des documents de cours.

DOCUMENTS DE COURS :
" ++ context ++ "

QUESTION DE L'ÉTUDIANT :
" ++ question ++ "

INSTRUCTIONS :
- Réponds de manière claire et pédagogique
- Utilise les informations des documents fournis
- Donne des exemples concrets quand c'est possible
- Structure ta réponse avec des titres si nécessaire
- Reste précis et factuel
- Adapte le niveau à un étudiant universitaire

RÉPONSE COMPLÈTE :"
  else
    "Tu es un professeur expérimenté. Un étudiant te pose une question.

QUESTION :
" ++ question ++ "

Réponds de manière claire, pédagogique et complète. Donne des exemples pratiques.

RÉPONSE :"

/-- `OllamaRAGEngine._clean_response`: strip, then prepend a header to long
unstructured multi-line answers. -/
def clean_response (response : String) : String :=
  let r := pyStrip response
  if ¬ pyStartsWith r "**" ∧ r.length > 100 then
    (if (pySplitOnChar (Char.ofNat 10) r).length > 2 then "**EXPLICATION**\n\n" ++ r else r)
  else r

/-- The generation provider: Ollama, as a map from (model name, prompt) to
`some text` (HTTP 200, possibly with empty text) or `none` (non-200 status,
connection error, timeout or any other raised exception). -/
abbrev Gens := String → String → Option String

/-- The fields of the dict returned by `OllamaModelManager.generate_response`
that the engine reads. -/
structure GenResult where
  success : Bool
  response : String
  tokens : Nat
deriving DecidableEq

/-- `OllamaModelManager.generate_response`: on HTTP 200 reports success with
the returned text and `tokens = len(text.split())`; every failure or raised
exception becomes `success = False`. -/
def generate_response (gens : Gens) (model prompt : String) : GenResult :=
  match gens model prompt with
  | some t => { success := true, response := t, tokens := wordCount t }
  | none => { success := false, response := "", tokens := 0 }

/-- The dict assembled by `_generate_ollama_response` /
`_generate_template_response` (response-time field abstracted). -/
structure GenAnswer where
  answer : String
  model_used : String
  tokens : Nat
  fallback_used : Bool
deriving DecidableEq

/-- Template answer of `_generate_template_response` when evidence context
is available (context capped at 300 characters). -/
def templateWithContext (question context : String) : String :=
  "**RÉPONSE BASÉE SUR VOS DOCUMENTS**

**Question :** " ++ question ++ "

**Explication :**
D'après les documents disponibles, voici les éléments clés pour répondre à votre question.

**Contenu pertinent :**
" ++ pyTake context 300 ++ "...

**Points importants :**
- Consultez les documents complets pour plus de détails
- Les concepts sont expliqués avec des exemples pratiques
- N'hésitez pas à poser des questions plus spécifiques

Cette réponse est basée sur vos documents de cours."

/-- Template answer of `_generate_template_response` without context. -/
def templateNoContext (question : String) : String :=
  "**ASSISTANT ÉDUCATIF**

**Question :** " ++ question ++ "

Je peux vous aider avec de nombreux concepts éducatifs. Pour une réponse plus précise :

1. Ajoutez vos documents de cours au système
2. Précisez le contexte de votre question
3. Indiquez le niveau d'études souhaité

**Domaines disponibles :**
- Mathématiques (algèbre, calcul, géométrie)
- Sciences (physique, chimie, biologie)
- Ingénierie (électricité, électronique)
- Informatique (algorithmes, programmation)

Je reste à votre disposition pour vous accompagner dans vos études."

/-- `OllamaRAGEngine._generate_template_response` (Python `if context:` is
the non-empty test). -/
def generate_template_response (question context : String) : GenAnswer :=
  let answer := if context ≠ "" then templateWithContext question context
                else templateNoContext question
  { answer := answer, model_used := "template", tokens := wordCount answer,
    fallback_used := true }

/-- Default fallback model list of the engine's configuration. -/
def fallback_models : List String := ["mistral", "codellama"]

/-- Default primary model of the engine's configuration. -/
def primary_model : String := "llama2"

/-- The fallback-model loop of `_generate_ollama_response`: first fallback
model whose call succeeds, with its text and token count. -/
def tryFallbacks (gens : Gens) (prompt : String) :
    List String → Option (String × String × Nat)
  | [] => none
  | m :: rest =>
    let r := generate_response gens m prompt
    if r.success then some (m, r.response, r.tokens)
    else tryFallbacks gens prompt rest

/-- `OllamaRAGEngine._generate_ollama_response`: build context and prompt,
try the requested model, then each fallback model, else the template
response. Note that it is called, and calls the provider, even when
`documents` is empty (the prompt then simply has no context block). -/
def generate_ollama_response (gens : Gens) (question : String)
    (documents : List RDoc) (model : String) : GenAnswer :=
  let context := build_context documents
  let prompt := create_educational_prompt question context
  let r := generate_response gens model prompt
  if r.success then
    { answer := clean_response r.response, model_used := model,
      tokens := r.tokens, fallback_used := false }
  else
    match tryFallbacks gens prompt fallback_models with
    | some (m, t, tk) =>
      { answer := clean_response t, model_used := m, tokens := tk,
        fallback_used := true }
    | none => generate_template_response question context

/-- `OllamaRAGEngine._calculate_confidence`: 0.5 base, plus
`min(0.3, n_docs * 0.1)` when evidence exists, plus 0.2 for a non-fallback
generation, plus 0.1 for answers over 100 tokens, capped at 1.0. -/
def calculate_confidence (documents : List RDoc) (g : GenAnswer) : ℚ :=
  let b1 : ℚ := 1 / 2
  let b2 := if documents.isEmpty then b1
            else b1 + min (3 / 10) ((documents.length : ℚ) * (1 / 10))
  let b3 := if g.fallback_used then b2 else b2 + 1 / 5
  let b4 := if g.tokens > 100 then b3 + 1 / 10 else b3
  min 1 b4

/-- `OllamaRAGEngine._assess_quality`. -/
def assess_quality (g : GenAnswer) (documents : List RDoc) : String :=
  if g.fallback_used then "basic"
  else if ¬ documents.isEmpty ∧ g.tokens > 150 then "high"
  else if ¬ documents.isEmpty then "good"
  else "fair"

/-- One formatted source of `_format_sources`. -/
structure SourceEntry where
  content : String
  source : String
  subject : String
  file_type : String
  score : ℚ
deriving DecidableEq

/-- `OllamaRAGEngine._format_sources`. -/
def format_sources (documents : List RDoc) : List SourceEntry :=
  documents.map (fun d =>
    { content := if d.content.length > 200 then pyTake d.content 200 ++ "..."
                 else d.content
      source := metaGet d.metadata "source" "Unknown"
      subject := metaGet d.metadata "subject" "General"
      file_type := metaGet d.metadata "file_type" "unknown"
      score := d.score })

/-- The fields of `OllamaResponse` the claims are about (query echo and
wall-clock fields abstracted). -/
structure OResponse where
  answer : String
  confidence : ℚ
  sources : List SourceEntry
  model_used : String
  tokens_generated : Nat
  source_scores : List ℚ
  quality_assessment : String
  fallback_used : Bool
deriving DecidableEq

/-- `OllamaRAGEngine.ask_question_async` under its default configuration
(primary model llama2, reranking enabled): Step 1 checks the precomputed
table and returns immediately on a hit; otherwise retrieval (Step 2),
reranking (Step 3), generation with fallbacks (Step 4) and confidence
(Step 5). The `except` branch (`_generate_error_fallback`, which would set
`model_used = "error_fallback"`) is unreachable in the pure model. -/
def ask_question_async (gens : Gens) (retrieved : List Doc)
    (question : String) : OResponse :=
  match get_precomputed_response question with
  | some quick =>
    { answer := quick
      confidence := 9 / 10
      sources := []
      model_used := "precomputed"
      tokens_generated := wordCount quick
      source_scores := []
      quality_assessment := "high"
      fallback_used := false }
  | none =>
    let relevant_docs := pipelineDocs question retrieved
    let g := generate_ollama_response gens question relevant_docs primary_model
    { answer := g.answer
      confidence := calculate_confidence relevant_docs g
      sources := format_sources relevant_docs
      model_used := g.model_used
      tokens_generated := g.tokens
      source_scores := relevant_docs.map (fun d => d.score)
      quality_assessment := assess_quality g relevant_docs
      fallback_used := g.fallback_used }

/-- The specification's `strategy_used` enum (section 3 of the spec). -/
inductive Strategy where
  | precomputed
  | retrievalGenerated
  | templateFallback
  | errorFallback
deriving DecidableEq

/-- The spec's strategy, read off a response the way the spec maps the
engine's `model_used` marker: the canned branch marks "precomputed", the
template branch "template", the error handler "error_fallback", and any
other value is the name of the generation model that produced the text. -/
def strategyOf (r : OResponse) : Strategy :=
  if r.model_used = "precomputed" then .precomputed
  else if r.model_used = "template" then .templateFallback
  else if r.model_used = "error_fallback" then .errorFallback
  else .retrievalGenerated

/-- Whether any configured model answers the cascade's prompt (the primary
model or one of the two fallback models). -/
def some_model_succeeds (gens : Gens) (question : String)
    (documents : List RDoc) : Prop :=
  let prompt := create_educational_prompt question (build_context documents)
  (gens primary_model prompt).isSome = true
    ∨ (gens "mistral" prompt).isSome = true
    ∨ (gens "codellama" prompt).isSome = true

end OllamaRAGEngine

namespace EnhancedFallbackLLM

/-- Response of `EnhancedFallbackLLM._get_ohm_law_response`. -/
def ohm_law_response : String := "La loi d'Ohm est une loi fondamentale en électricité qui décrit la relation entre la tension (U), le courant (I) et la résistance (R) dans un circuit électrique.

**Formule**: U = R × I

Où:
- U est la tension en volts (V)
- R est la résistance en ohms (Ω)
- I est l'intensité du courant en ampères (A)

**Exemple pratique**:
Si une résistance de 100Ω est traversée par un courant de 0.5A,
la tension à ses bornes sera: U = 100Ω × 0.5A = 50V"

/-- Response of `EnhancedFallbackLLM._get_thevenin_response`. -/
def thevenin_response : String := "Le théorème de Thévenin permet de simplifier un circuit électrique complexe en un circuit équivalent simple.

**Principe**:
Tout circuit linéaire peut être remplacé par:
1. Une source de tension (Eth)
2. Une résistance en série (Rth)

**Étapes de calcul**:
1. Calculer Eth en circuit ouvert
2. Calculer Rth en court-circuitant les sources
3. Le circuit équivalent donne les mêmes résultats"

/-- Response of `EnhancedFallbackLLM._get_transistor_response`. -/
def transistor_response : String := "Un transistor est un composant électronique semi-conducteur utilisé pour amplifier ou commuter des signaux électriques.

**Principaux types**:
1. Bipolaire (BJT)
   - NPN et PNP
   - Utilisé pour l'amplification

2. Effet de champ (FET)
   - MOSFET, JFET
   - Utilisé pour la commutation

**Paramètres clés**:
- Gain en courant (β)
- Tension collecteur-émetteur (Vce)
- Courant collecteur (Ic)"

/-- Response of `EnhancedFallbackLLM._get_derivative_response`. -/
def derivative_response : String := "La dérivée mesure le taux de variation instantané d'une fonction.

**Règles principales**:
1. Dérivée d'une constante = 0
2. Dérivée de x^n = n×x^(n-1)
3. Règle du produit: (u×v)' = u'×v + u×v'
4. Règle de la chaîne: (f∘g)' = (f'∘g)×g'

**Exemple**:
Pour f(x) = x², f'(x) = 2x
Pour g(x) = sin(x), g'(x) = cos(x)"

/-- Response of `EnhancedFallbackLLM._get_general_response`. -/
def general_response (query : String) : String :=
  "Je peux vous aider à comprendre ce concept. Voici une approche structurée :

1. **Définition de base**
2. **Principes fondamentaux**
3. **Applications pratiques**

Pour une réponse plus précise sur \"" ++ query ++ "\", ajoutez des documents dans le dossier 'data/'."

/-- `EnhancedFallbackLLM.get_response` (src/src/rag_engine.py): keyword
dispatch over the lowercased query. -/
def get_response (query : String) : String :=
  let ql := pyLower query
  if strContains ql "ohm" then ohm_law_response
  else if strContains ql "thévenin" then thevenin_response
  else if strContains ql "transistor" then transistor_response
  else if strContains ql "dérivée" then derivative_response
  else general_response query

end EnhancedFallbackLLM

namespace ProfessionalRAGEngine

/-- The fields of `RAGResponse` (src/src/rag_engine.py) the claims are
about (wall-clock and metadata fields abstracted). -/
structure RAGResponse where
  answer : String
  confidence : ℚ
  sources : List Doc
  model_used : String
  source_scores : List ℚ

/-- Engine defaults: `max_sources = 5`. -/
def max_sources : Nat := 5

/-- Engine defaults: `min_confidence = 0.3`. -/
def min_confidence : ℚ := 3 / 10

/-- Python `max()` over a score list (the empty case raises in Python and is
unreachable at its call site, which requires a non-empty result list). -/
def pyMax : List ℚ → ℚ
  | [] => 0
  | x :: xs => xs.foldl max x

/-- The engine's `PromptTemplate` instantiated with sources and question. -/
def prompt_template (sources question : String) : String :=
  "En tant qu'Assistant Étudiant IA professionnel, utilisez les sources suivantes pour répondre à la question de manière pédagogique et structurée.

Sources:
" ++ sources ++ "

Question: " ++ question ++ "

Instructions:
1. Analysez attentivement les sources fournies
2. Structurez votre réponse de manière claire
3. Utilisez des exemples si approprié
4. Citez les concepts importants
5. Restez factuel et précis

Réponse:"

/-- `ProfessionalRAGEngine.ask_question` with no subject filter, under the
default configuration (`model_type = "auto"`, `use_reranking = True`,
`max_sources = 5`): search the enhanced store, then either invoke the LLM
(when one is available and evidence was found), taking the MAXIMUM evidence
score as the confidence, or fall back to the canned fallback LLM with the
fixed `min_confidence`. -/
def ask_question (embed : String → Vec) (s : EnhancedVectorStore.Store)
    (llm : Option (String → String)) (question : String) : RAGResponse :=
  let results := EnhancedVectorStore.search_documents embed s question max_sources true
  let sources_text := String.intercalate "\n\n" (results.enum.map (fun p =>
    "Source " ++ toString (p.1 + 1) ++ ":\n" ++ p.2.1.page_content))
  match llm with
  | some f =>
    if results.isEmpty then
      { answer := EnhancedFallbackLLM.get_response question
        confidence := min_confidence
        sources := results.map (fun r => r.1)
        model_used := "fallback"
        source_scores := results.map (fun r => r.2) }
    else
      { answer := f (prompt_template sources_text question)
        confidence := pyMax (results.map (fun r => r.2))
        sources := results.map (fun r => r.1)
        model_used := "auto"
        source_scores := results.map (fun r => r.2) }
  | none =>
    { answer := EnhancedFallbackLLM.get_response question
      confidence := min_confidence
      sources := results.map (fun r => r.1)
      model_used := "fallback"
      source_scores := results.map (fun r => r.2) }

end ProfessionalRAGEngine

namespace RAGEngine

/-- `RAGEngine._calculate_confidence`
(src/assistant-etudiant-intelligent/src/rag_engine.py): 0.0 without sources,
0.5 when the scored search returns nothing, otherwise `1 - avg_score/2`
clamped into [0, 1]. The store's `search_with_scores` result is the
`results_with_scores` parameter. -/
def calculate_confidence (sources : List Doc)
    (results_with_scores : List (Doc × ℚ)) : ℚ :=
  if sources.isEmpty then 0
  else if results_with_scores.isEmpty then 1 / 2
  else
    let scores := results_with_scores.map (fun r => r.2)
    let avg := scores.sum / (scores.length : ℚ)
    max 0 (min 1 (1 - avg / 2))

end RAGEngine

section ConcreteInstances

open EnhancedVectorStore OllamaRAGEngine

/-- Test chunk "A" for the reranking counterexample. -/
def docA : Doc := { page_content := "A", metadata := [] }

/-- Test chunk "B" for the reranking counterexample. -/
def docB : Doc := { page_content := "B", metadata := [] }

/-- Concrete embedding provider: maps the query "q" to [1], chunk "A" to
[1/10] and chunk "B" to [2]. -/
def embedCEx : String → Vec := fun s =>
  if s = "q" then [1] else if s = "A" then [1 / 10]
  else if s = "B" then [2] else [0]

/-- A built flat store holding chunks "A" and "B" (their `embedCEx`
vectors, in insertion order). -/
def storeCEx : EnhancedVectorStore.Store :=
  { index := [[1 / 10], [2]]
    documents := [docA, docB]
    document_lookup := [(0, docA), (1, docB)]
    stats := { initStats with total_vectors := 2, total_documents := 2 } }

/-- A chunk present before a failing rebuild / failing load. -/
def docPrev : Doc := { page_content := "ancien contenu", metadata := [] }

/-- A built store with one chunk, the prior state for the build/load
counterexamples. -/
def storePrev : EnhancedVectorStore.Store :=
  { index := [[1]]
    documents := [docPrev]
    document_lookup := [(0, docPrev)]
    stats := { initStats with total_vectors := 1, total_documents := 1 } }

/-- An embedding provider whose every call raises. -/
def embedFail : String → Option Vec := fun _ => none

/-- On-disk artifacts whose index file is readable but whose documents
pickle is corrupt. -/
def artifactsBad : EnhancedVectorStore.Artifacts :=
  { indexFile := .ok [[5]]
    documentsFile := .malformed
    lookupFile := .ok []
    statsFile := .ok EnhancedVectorStore.initStats }

/-- On-disk artifacts with the index file missing. -/
def artifactsMissing : EnhancedVectorStore.Artifacts :=
  { indexFile := .missing
    documentsFile := .ok []
    lookupFile := .ok []
    statsFile := .ok EnhancedVectorStore.initStats }

/-- A generation provider that always answers with a short text. -/
def gensOk : Gens := fun _ _ => some "Réponse pédagogique du modèle."

/-- A generation provider that succeeds (HTTP 200) with empty text. -/
def gensEmpty : Gens := fun _ _ => some ""

/-- A generation provider that always fails (timeout / connection error /
non-200 status) for every model. -/
def gensNone : Gens := fun _ _ => none

/-- A retrieved course chunk. -/
def docP : Doc := { page_content := "cours un", metadata := [] }

/-- A second retrieved course chunk. -/
def docQ2 : Doc := { page_content := "cours deux", metadata := [] }

/-- Concrete embedding provider for the confidence counterexample: query
"qq" and chunk "C" both map to [2]. -/
def embedPro : String → Vec := fun s =>
  if s = "qq" then [2] else if s = "C" then [2] else [0]

/-- Chunk "C" of the confidence counterexample. -/
def docC : Doc := { page_content := "C", metadata := [] }

/-- A built flat store holding only chunk "C". -/
def storePro : EnhancedVectorStore.Store :=
  { index := [[2]]
    documents := [docC]
    document_lookup := [(0, docC)]
    stats := { initStats with total_vectors := 1, total_documents := 1 } }

end ConcreteInstances

section Helpers

open EnhancedVectorStore OllamaRAGEngine

/-- Mapping a function over an option does not change whether it is filled. -/
theorem isSome_option_map {α β : Type} (f : α → β) (x : Option α) :
    (x.map f).isSome = x.isSome := by
  cases x <;> rfl

/-- Appending to a non-empty string yields a non-empty string. -/
theorem string_append_ne_empty (a b : String) (ha : a ≠ "") : a ++ b ≠ "" := by
  intro h
  apply ha
  have hd : a.data ++ b.data = [] := by
    have h2 := congrArg String.data h
    simpa [String.data_append] using h2
  have h3 : a.data = [] := (List.append_eq_nil.mp hd).1
  cases a with
  | mk da => simp at h3; simp [h3]

/-- The trigger loop returns exactly the first table entry whose keyword is
contained in the lowercased question. -/
theorem findTrigger_eq_find? (ql : String) (l : List (String × String)) :
    findTrigger ql l = (l.find? (fun p => strContains ql p.1)).map Prod.snd := by
  induction l with
  | nil => rfl
  | cons p rest ih =>
    simp only [findTrigger, List.find?_cons]
    by_cases h : strContains ql p.1 = true
    · simp [h]
    · simp [h, ih]

/-- On index positions that are in range, the lookup filter of
`search_documents` keeps every fetched pair. -/
theorem filterMap_lookup_eq_map (ds : List Doc) :
    ∀ (l : List (ℚ × Nat)), (∀ p ∈ l, p.2 < ds.length) →
      l.filterMap (fun p => (ds[p.2]?).map (fun d => (d, p.1)))
        = l.map (fun p => (ds.getD p.2 default, p.1)) := by
  intro l
  induction l with
  | nil => simp
  | cons a t ih =>
    intro h
    have ha : a.2 < ds.length := h a (List.mem_cons_self a t)
    have ht := ih (fun p hp => h p (List.mem_cons_of_mem a hp))
    simp [List.filterMap_cons, List.getElem?_eq_getElem ha, ht,
          List.getD_eq_getElem?_getD]

/-- When every model call fails, `_generate_ollama_response` degrades to the
template response. -/
theorem generate_ollama_response_all_fail (gens : Gens) (question : String)
    (documents : List RDoc) (model : String)
    (hfail : ∀ m prompt, gens m prompt = none) :
    generate_ollama_response gens question documents model
      = generate_template_response question (build_context documents) := by
  unfold generate_ollama_response
  simp [generate_response, hfail, tryFallbacks, fallback_models]

/-- The with-context template answer is non-empty. -/
theorem templateWithContext_ne_empty (q c : String) :
    templateWithContext q c ≠ "" := by
  unfold templateWithContext
  apply string_append_ne_empty
  apply string_append_ne_empty
  apply string_append_ne_empty
  apply string_append_ne_empty
  intro h
  exact absurd (congrArg String.data h) (by decide)

/-- The no-context template answer is non-empty as well. -/
theorem templateNoContext_ne_empty (q : String) :
    templateNoContext q ≠ "" := by
  unfold templateNoContext
  apply string_append_ne_empty
  apply string_append_ne_empty
  intro h
  exact absurd (congrArg String.data h) (by decide)

end Helpers

section ClaimTheorems

open EnhancedVectorStore OllamaRAGEngine

/-- C10: precomputed-answer triggering is case-insensitive substring
containment over the whole query: `_get_precomputed_response` returns the
answer of the first table entry (in declared iteration order) whose keyword
occurs anywhere in the lowercased query, and `none` exactly when no keyword
occurs as a substring. -/
theorem precomputed_first_match_characterization (question : String) :
    get_precomputed_response question
      = (precomputed_responses.find?
          (fun p => strContains (pyLower question) p.1)).map Prod.snd
    ∧ ((get_precomputed_response question).isSome = true
        ↔ ∃ p ∈ precomputed_responses,
            strContains (pyLower question) p.1 = true) := by
  constructor
  · exact findTrigger_eq_find? (pyLower question) precomputed_responses
  · rw [get_precomputed_response, findTrigger_eq_find?]
    rw [isSome_option_map]
    exact List.find?_isSome

/-- C1: a query whose lowercased text contains a registered precomputed
trigger keyword makes the cascade return the canned answer with strategy
precomputed and empty evidence, and the response does not depend on the
retrieval outcome or on the generation provider (neither is consulted). -/
theorem precomputed_trigger_short_circuits (gens gens' : Gens)
    (retrieved retrieved' : List Doc) (question : String)
    (h : ∃ p ∈ precomputed_responses, strContains (pyLower question) p.1 = true) :
    strategyOf (ask_question_async gens retrieved question) = Strategy.precomputed
    ∧ (ask_question_async gens retrieved question).sources = []
    ∧ get_precomputed_response question
        = some (ask_question_async gens retrieved question).answer
    ∧ ask_question_async gens retrieved question
        = ask_question_async gens' retrieved' question := by
  have hsome : (get_precomputed_response question).isSome = true := by
    rw [get_precomputed_response, findTrigger_eq_find?]
    rw [isSome_option_map]
    exact List.find?_isSome.mpr h
  obtain ⟨ans, hans⟩ := Option.isSome_iff_exists.mp hsome
  refine ⟨?_, ?_, ?_, ?_⟩ <;> simp [ask_question_async, hans, strategyOf]

/-- Witness for C1 at the concrete query "Explique la loi d'ohm" (the
trigger "ohm" occurs): the cascade's answer is the canned one whatever the
index contents and whatever the provider does. -/
theorem precomputed_trigger_short_circuits_witness :
    strategyOf (ask_question_async gensOk [docP] "Explique la loi d'ohm")
        = Strategy.precomputed
    ∧ (ask_question_async gensOk [docP] "Explique la loi d'ohm").sources = []
    ∧ get_precomputed_response "Explique la loi d'ohm"
        = some (ask_question_async gensOk [docP] "Explique la loi d'ohm").answer
    ∧ ask_question_async gensOk [docP] "Explique la loi d'ohm"
        = ask_question_async gensNone [] "Explique la loi d'ohm" :=
  precomputed_trigger_short_circuits gensOk gensNone [docP] [] "Explique la loi d'ohm"
    ⟨("ohm", ohm_answer),
     by unfold precomputed_responses; exact List.mem_cons_self _ _,
     by decide⟩

/-- C2 (counterexample): under the default configuration
(`use_reranking = True`) flat search does NOT return the chunks with the
smallest distance ordered by ascending distance: in the two-chunk store,
chunk A is strictly nearer to the query embedding than chunk B, yet
`search_documents` with `k = 1` returns chunk B (the reranker's combined
score, not the distance, decides). -/
theorem default_search_not_nearest_cex :
    search_documents embedCEx storeCEx "q" 1 true = [(docB, 1)]
    ∧ sqDist (embedCEx "q") (embedCEx "A") < sqDist (embedCEx "q") (embedCEx "B")
    ∧ storeCEx.documents = [docA, docB]
    ∧ docA ≠ docB := by
  refine ⟨by with_unfolding_all rfl, by with_unfolding_all decide, rfl, by decide⟩

/-- C2 (amended): with reranking disabled, `search_documents` returns
exactly the up-to-k stored chunks of smallest squared L2 distance to the
query embedding: the selected (distance, index) pairs are sorted ascending
with ties broken by insertion index, number `min k n`, and every selected
pair precedes every non-selected pair in that order, so results are
deterministic for identical inputs. -/
theorem search_noRerank_knn_correct (embed : String → Vec)
    (s : EnhancedVectorStore.Store) (query : String) (k : Nat)
    (hwf : s.index.length = s.documents.length) :
    search_documents embed s query k false
        = (faissSearch s.index (embed query) k).map
            (fun p => (s.documents.getD p.2 default, p.1))
    ∧ (faissSearch s.index (embed query) k).length = min k s.index.length
    ∧ List.Pairwise keyLe (faissSearch s.index (embed query) k)
    ∧ ∀ p ∈ faissSearch s.index (embed query) k,
        ∀ pr ∈ s.index.enum.map (fun e => (sqDist (embed query) e.2, e.1)),
          pr ∉ faissSearch s.index (embed query) k → keyLe p pr := by
  set qv := embed query with hqv
  set pairs := s.index.enum.map (fun e => (sqDist qv e.2, e.1)) with hpairs
  set sorted := List.insertionSort keyLe pairs with hsorted_def
  have hperm : sorted.Perm pairs := List.perm_insertionSort keyLe pairs
  have hsor : List.Pairwise keyLe sorted := List.sorted_insertionSort keyLe pairs
  have hsel : faissSearch s.index qv k = sorted.take k := rfl
  have hlenpairs : pairs.length = s.index.length := by
    rw [hpairs, List.length_map, List.enum_length]
  have hmem_pairs : ∀ p ∈ sorted.take k, p ∈ pairs := fun p hp =>
    hperm.mem_iff.mp ((List.take_sublist k sorted).mem hp)
  have hidx : ∀ p ∈ pairs, p.2 < s.documents.length := by
    intro p hp
    rw [← hwf]
    have hm : p.2 ∈ pairs.map Prod.snd := List.mem_map_of_mem Prod.snd hp
    rw [hpairs, List.map_map] at hm
    have h2 : (Prod.snd ∘ fun e : Nat × Vec => (sqDist qv e.2, e.1)) = Prod.fst := rfl
    rw [h2, List.enum_map_fst] at hm
    exact List.mem_range.mp hm
  refine ⟨?_, ?_, ?_, ?_⟩
  · have hshape : search_documents embed s query k false
        = (faissSearch s.index qv k).filterMap
            (fun p => (s.documents[p.2]?).map (fun d => (d, p.1))) := rfl
    rw [hshape]
    exact filterMap_lookup_eq_map s.documents _
      (fun p hp => hidx p (hmem_pairs p (by rwa [hsel] at hp)))
  · rw [hsel, List.length_take, hperm.length_eq, hlenpairs]
  · rw [hsel]
    exact List.Pairwise.sublist (List.take_sublist k sorted) hsor
  · intro p hp pr hpr hnot
    rw [hsel] at hp hnot
    have hpr_sorted : pr ∈ sorted := hperm.mem_iff.mpr hpr
    rw [← List.take_append_drop k sorted] at hpr_sorted hsor
    rcases List.mem_append.mp hpr_sorted with hcase | hcase
    · exact absurd hcase hnot
    · exact (List.pairwise_append.mp hsor).2.2 p hp pr hcase

/-- Witness for C2's amended theorem on the concrete two-chunk store with
`k = 2` and reranking disabled. -/
theorem search_noRerank_knn_correct_witness :
    search_documents embedCEx storeCEx "q" 2 false
        = (faissSearch storeCEx.index (embedCEx "q") 2).map
            (fun p => (storeCEx.documents.getD p.2 default, p.1))
    ∧ (faissSearch storeCEx.index (embedCEx "q") 2).length
        = min 2 storeCEx.index.length
    ∧ List.Pairwise keyLe (faissSearch storeCEx.index (embedCEx "q") 2)
    ∧ ∀ p ∈ faissSearch storeCEx.index (embedCEx "q") 2,
        ∀ pr ∈ storeCEx.index.enum.map (fun e => (sqDist (embedCEx "q") e.2, e.1)),
          pr ∉ faissSearch storeCEx.index (embedCEx "q") 2 → keyLe p pr :=
  search_noRerank_knn_correct embedCEx storeCEx "q" 2 rfl

/-- C3: saving a built index and loading the artifacts into any store
restores the state exactly, so search afterwards returns the identical
ordered candidate list (identical chunks and distances — the model's
persistence is lossless, matching faiss/pickle round-trips) for every query,
every k and either reranking setting. -/
theorem save_load_search_roundtrip (embed : String → Vec)
    (s sOld : EnhancedVectorStore.Store) (query : String) (k : Nat)
    (rer : Bool) :
    (load_vector_store sOld (save_vector_store s)).1 = true
    ∧ search_documents embed (load_vector_store sOld (save_vector_store s)).2 query k rer
        = search_documents embed s query k rer :=
  ⟨rfl, rfl⟩

/-- C6 (counterexample): `create_vector_store` on an empty chunk list
returns a failure result without raising, but it has already reset the
store, so the prior index state (one indexed chunk) is destroyed rather
than left unmodified. -/
theorem empty_build_wipes_state_cex :
    (create_vector_store embedFail storePrev []).1 = false
    ∧ (create_vector_store embedFail storePrev []).2.documents = []
    ∧ (create_vector_store embedFail storePrev []).2.index = []
    ∧ storePrev.documents = [docPrev]
    ∧ storePrev.index = [[1]]
    ∧ (create_vector_store embedFail storePrev []).2 ≠ storePrev :=
  ⟨rfl, rfl, rfl, rfl, rfl, by decide⟩

/-- C6 (amended): a failing build (empty chunk list, or every chunk's
embedding failing) returns `False` without raising, but the prior state was
reset before the embedding loop, so the failed build always leaves the
store in the reset state (empty index, empty documents, stats untouched) —
the prior index is not preserved. -/
theorem failed_build_resets_store (embedDoc : String → Option Vec)
    (s : EnhancedVectorStore.Store) (documents : List Doc)
    (h : ∀ d ∈ documents, embedDoc d.page_content = none) :
    create_vector_store embedDoc s documents = (false, reset_store s) := by
  unfold create_vector_store
  have hnil : documents.enum.filterMap
      (fun p => (embedDoc p.2.page_content).map (fun v => (p.1, p.2, v))) = [] := by
    rw [List.filterMap_eq_nil_iff]
    intro a ha
    have hmem : a.2 ∈ documents := by
      have h2 := List.mem_map_of_mem Prod.snd ha
      rwa [List.enum_map_snd] at h2
    rw [h a.2 hmem]
    rfl
  simp [hnil]

/-- Witness for C6's amended theorem: building from one chunk whose
embedding fails returns failure with the reset store. -/
theorem failed_build_resets_store_witness :
    create_vector_store embedFail storePrev [docP] = (false, reset_store storePrev) :=
  failed_build_resets_store embedFail storePrev [docP] (fun _ _ => rfl)

/-- C7 (counterexample): loading artifacts whose index file is readable but
whose documents pickle is corrupt returns a failure result, yet the
in-memory index has already been overwritten with the loaded one — the
previous in-memory index is NOT left untouched on this load failure. -/
theorem malformed_load_overwrites_index_cex :
    (load_vector_store storePrev artifactsBad).1 = false
    ∧ (load_vector_store storePrev artifactsBad).2.index = [[5]]
    ∧ storePrev.index = [[1]]
    ∧ (load_vector_store storePrev artifactsBad).2.index ≠ storePrev.index :=
  ⟨rfl, rfl, rfl, by decide⟩

/-- C7 (amended): `load_vector_store` returns a failure result (it never
raises) when an artifact is missing or malformed; when one of the four
files is missing, the existence pre-check fails and the previous in-memory
index, document store and stats are left untouched (whereas a malformed
artifact detected after earlier reads leaves the already-read fields
overwritten). -/
theorem load_missing_artifact_preserves_state (s : EnhancedVectorStore.Store)
    (a : EnhancedVectorStore.Artifacts)
    (h : a.indexFile.existsOnDisk = false ∨ a.documentsFile.existsOnDisk = false
       ∨ a.lookupFile.existsOnDisk = false ∨ a.statsFile.existsOnDisk = false) :
    load_vector_store s a = (false, s) := by
  unfold load_vector_store
  rcases h with h | h | h | h <;> simp [h]

/-- Witness for C7's amended theorem: loading with a missing index file
fails and preserves the prior store. -/
theorem load_missing_artifact_preserves_state_witness :
    load_vector_store storePrev artifactsMissing = (false, storePrev) :=
  load_missing_artifact_preserves_state storePrev artifactsMissing (Or.inl rfl)

/-- C4 (counterexample): a fresh, never-built index makes search return the
empty sequence — and yet the cascade on that empty evidence terminates with
strategy retrieval-generated (the model is invoked with the no-context
prompt and succeeds), not template-fallback or precomputed. -/
theorem fresh_index_retrieval_generated_cex :
    search_documents embedCEx emptyStore "Bonjour" 5 true = []
    ∧ strategyOf (ask_question_async gensOk [] "Bonjour")
        = Strategy.retrievalGenerated
    ∧ (ask_question_async gensOk [] "Bonjour").sources = [] := by
  refine ⟨by with_unfolding_all rfl, by with_unfolding_all rfl,
         by with_unfolding_all rfl⟩

/-- C4 (amended): the cascade terminates with strategy retrieval-generated
exactly when no precomputed trigger matched and some configured model's
generation call succeeds — the post-rerank evidence set may be empty, since
generation is attempted even without evidence. A freshly constructed,
never-built index still makes `search_documents` return the empty sequence
for every query, k and reranking setting. -/
theorem retrieval_generated_characterization :
    (∀ (gens : Gens) (retrieved : List Doc) (question : String),
      strategyOf (ask_question_async gens retrieved question)
          = Strategy.retrievalGenerated
        ↔ get_precomputed_response question = none
          ∧ some_model_succeeds gens question (pipelineDocs question retrieved))
    ∧ ∀ (embed : String → Vec) (query : String) (k : Nat) (rer : Bool),
        search_documents embed emptyStore query k rer = [] := by
  constructor
  · intro gens retrieved question
    cases hpc : get_precomputed_response question with
    | some q =>
      simp [ask_question_async, hpc, strategyOf, some_model_succeeds]
    | none =>
      cases h1 : gens "llama2" (create_educational_prompt question
          (build_context (pipelineDocs question retrieved))) with
      | some t =>
        simp [ask_question_async, hpc, generate_ollama_response,
              generate_response, h1, strategyOf, some_model_succeeds,
              primary_model]
      | none =>
        cases h2 : gens "mistral" (create_educational_prompt question
            (build_context (pipelineDocs question retrieved))) with
        | some t =>
          simp [ask_question_async, hpc, generate_ollama_response,
                generate_response, tryFallbacks, fallback_models, h1, h2,
                strategyOf, some_model_succeeds, primary_model]
        | none =>
          cases h3 : gens "codellama" (create_educational_prompt question
              (build_context (pipelineDocs question retrieved))) with
          | some t =>
            simp [ask_question_async, hpc, generate_ollama_response,
                  generate_response, tryFallbacks, fallback_models, h1, h2,
                  h3, strategyOf, some_model_succeeds, primary_model]
          | none =>
            simp [ask_question_async, hpc, generate_ollama_response,
                  generate_response, tryFallbacks, fallback_models, h1, h2,
                  h3, generate_template_response, strategyOf,
                  some_model_succeeds, primary_model]
  · intro embed query k rer
    cases rer <;> simp [search_documents, faissSearch, rerank_results,
      emptyStore, List.take_nil]

/-- C5 (counterexample): a generation call that succeeds with empty text
(HTTP 200, empty response field) is NOT routed to the template fallback —
the cascade returns the empty string as the final answer with
`fallback_used = False` and strategy retrieval-generated. -/
theorem empty_generation_returned_cex :
    (ask_question_async gensEmpty [] "Bonjour").answer = ""
    ∧ (ask_question_async gensEmpty [] "Bonjour").fallback_used = false
    ∧ strategyOf (ask_question_async gensEmpty [] "Bonjour")
        = Strategy.retrievalGenerated := by
  refine ⟨by with_unfolding_all rfl, by with_unfolding_all rfl,
         by with_unfolding_all rfl⟩

/-- C5 (amended): whenever the generation provider call fails or times out
(modelled as a failure outcome) for the primary and every fallback model,
the cascade produces the deterministic template-fallback answer, which is
non-empty, without any error propagating; a successful call returning empty
text is however returned as the final (empty) answer, not routed to the
template. -/
theorem provider_failure_template_fallback (gens : Gens)
    (retrieved : List Doc) (question : String)
    (hpc : get_precomputed_response question = none)
    (hfail : ∀ m prompt, gens m prompt = none) :
    strategyOf (ask_question_async gens retrieved question)
        = Strategy.templateFallback
    ∧ (ask_question_async gens retrieved question).fallback_used = true
    ∧ (ask_question_async gens retrieved question).answer
        = (generate_template_response question
            (build_context (pipelineDocs question retrieved))).answer
    ∧ (ask_question_async gens retrieved question).answer ≠ "" := by
  have hg := generate_ollama_response_all_fail gens question
    (pipelineDocs question retrieved) primary_model hfail
  refine ⟨?_, ?_, ?_, ?_⟩
  · simp [ask_question_async, hpc, hg, strategyOf, generate_template_response]
  · simp [ask_question_async, hpc, hg, generate_template_response]
  · simp [ask_question_async, hpc, hg]
  · simp only [ask_question_async, hpc, hg]
    unfold generate_template_response
    by_cases hc : build_context (pipelineDocs question retrieved) = ""
    · simp [hc]
      exact templateNoContext_ne_empty _
    · simp [hc]
      exact templateWithContext_ne_empty _ _

/-- Witness for C5's amended theorem: all models failing on the query
"Bonjour" with no retrieval yields the non-empty no-context template. -/
theorem provider_failure_template_fallback_witness :
    strategyOf (ask_question_async gensNone [] "Bonjour")
        = Strategy.templateFallback
    ∧ (ask_question_async gensNone [] "Bonjour").fallback_used = true
    ∧ (ask_question_async gensNone [] "Bonjour").answer
        = (generate_template_response "Bonjour"
            (build_context (pipelineDocs "Bonjour" []))).answer
    ∧ (ask_question_async gensNone [] "Bonjour").answer ≠ "" :=
  provider_failure_template_fallback gensNone [] "Bonjour" rfl (fun _ _ => rfl)

set_option maxRecDepth 4000 in
/-- C9 (counterexample): two template-fallback responses (every model call
failing) have different confidences — 0.5 with no retrieved evidence and
0.7 with two retrieved chunks — so the template-fallback confidence is not
a fixed constant independent of the evidence. -/
theorem template_confidence_not_constant_cex :
    strategyOf (ask_question_async gensNone [] "Bonjour")
        = Strategy.templateFallback
    ∧ strategyOf (ask_question_async gensNone [docP, docQ2] "Bonjour")
        = Strategy.templateFallback
    ∧ (ask_question_async gensNone [] "Bonjour").confidence = 1 / 2
    ∧ (ask_question_async gensNone [docP, docQ2] "Bonjour").confidence = 7 / 10
    ∧ (ask_question_async gensNone [] "Bonjour").confidence
        ≠ (ask_question_async gensNone [docP, docQ2] "Bonjour").confidence := by
  refine ⟨by with_unfolding_all rfl, by with_unfolding_all rfl,
         by with_unfolding_all rfl, by with_unfolding_all rfl,
         by with_unfolding_all decide⟩

/-- C9 (amended): the template-fallback confidence follows the closed
formula `min(1, 0.5 + (0 if no evidence else min(0.3, 0.1 * n_docs)) +
(0.1 if the template answer exceeds 100 tokens else 0))`: it depends on the
number of evidence items and on the produced answer's length, and is not a
fixed constant. -/
theorem template_confidence_formula (gens : Gens) (retrieved : List Doc)
    (question : String)
    (hpc : get_precomputed_response question = none)
    (hfail : ∀ m prompt, gens m prompt = none) :
    (ask_question_async gens retrieved question).confidence
      = min 1 ((if (pipelineDocs question retrieved).isEmpty then (1 : ℚ) / 2
            else 1 / 2 + min (3 / 10)
              (((pipelineDocs question retrieved).length : ℚ) * (1 / 10)))
          + (if wordCount (ask_question_async gens retrieved question).answer > 100
             then (1 : ℚ) / 10 else 0)) := by
  have hg := generate_ollama_response_all_fail gens question
    (pipelineDocs question retrieved) primary_model hfail
  simp only [ask_question_async, hpc, hg]
  unfold calculate_confidence generate_template_response
  dsimp only
  split_ifs <;>
    first
      | exact absurd rfl (by assumption)
      | ring

set_option maxRecDepth 4000 in
/-- Witness for C9's amended theorem at the concrete two-chunk retrieval. -/
theorem template_confidence_formula_witness :
    (ask_question_async gensNone [docP, docQ2] "Bonjour").confidence
      = min 1 ((if (pipelineDocs "Bonjour" [docP, docQ2]).isEmpty then (1 : ℚ) / 2
            else 1 / 2 + min (3 / 10)
              (((pipelineDocs "Bonjour" [docP, docQ2]).length : ℚ) * (1 / 10)))
          + (if wordCount (ask_question_async gensNone [docP, docQ2] "Bonjour").answer > 100
             then (1 : ℚ) / 10 else 0)) :=
  template_confidence_formula gensNone [docP, docQ2] "Bonjour" rfl (fun _ _ => rfl)

/-- The Ollama engine's computed confidence is always within [0, 1]. -/
theorem calculate_confidence_bounds (documents : List RDoc) (g : GenAnswer) :
    0 ≤ calculate_confidence documents g
    ∧ calculate_confidence documents g ≤ 1 := by
  unfold calculate_confidence
  dsimp only
  have hmin : (0 : ℚ) ≤ min (3 / 10) ((documents.length : ℚ) * (1 / 10)) :=
    le_min (by norm_num) (by positivity)
  constructor
  · apply le_min (by norm_num)
    split_ifs <;> linarith
  · exact min_le_left _ _

/-- C8 (counterexample): `ProfessionalRAGEngine.ask_question` can return a
confidence strictly greater than 1: with one stored chunk whose rerank
combined score is 5/2, the LLM branch takes the maximum evidence score as
the confidence. -/
theorem professional_confidence_exceeds_one_cex :
    (ProfessionalRAGEngine.ask_question embedPro storePro
        (some (fun _ => "réponse générée")) "qq").confidence = 5 / 2
    ∧ (1 : ℚ) < 5 / 2 := by
  refine ⟨by with_unfolding_all rfl, by norm_num⟩

/-- C8 (amended): the confidence invariant holds at the Ollama cascade's
boundary (every response's confidence lies in [0, 1]) and for
`RAGEngine._calculate_confidence` (which clamps into [0, 1]); it fails only
for `ProfessionalRAGEngine.ask_question`, whose LLM-branch confidence is
the unclamped maximum evidence score. -/
theorem confidence_unit_interval_amended :
    (∀ (gens : Gens) (retrieved : List Doc) (question : String),
        0 ≤ (ask_question_async gens retrieved question).confidence
        ∧ (ask_question_async gens retrieved question).confidence ≤ 1)
    ∧ ∀ (srcs : List Doc) (rws : List (Doc × ℚ)),
        0 ≤ RAGEngine.calculate_confidence srcs rws
        ∧ RAGEngine.calculate_confidence srcs rws ≤ 1 := by
  constructor
  · intro gens retrieved question
    cases hpc : get_precomputed_response question with
    | some q =>
      simp only [ask_question_async, hpc]
      constructor <;> norm_num
    | none =>
      simp only [ask_question_async, hpc]
      exact calculate_confidence_bounds _ _
  · intro srcs rws
    unfold RAGEngine.calculate_confidence
    dsimp only
    split_ifs
    · norm_num
    · norm_num
    · constructor
      · exact le_max_left 0 _
      · exact max_le (by norm_num) (min_le_left _ _)

end ClaimTheorems
